import Mathlib

/-!
Shallow embedding of `src/services/geminiService.ts` (CookiFy).

The file models the service layer that builds prompts for a hosted
generative-AI backend, parses its JSON responses, and chains image
backends with a local placeholder fallback.  JavaScript runtime values
are modelled by the inductive `Json`; the external collaborators
(the text-generation endpoint, the two image endpoints, `JSON.parse`,
`encodeURIComponent`, `Math.random`, the canvas 2d context and `btoa`)
are modelled as components of an `Env` record, so every exported
function becomes a pure Lean function of the environment and its
arguments.  Thrown-and-caught JavaScript errors are folded into the
value-level control flow exactly where the source catches them; errors
that escape a function are returned as `Except.error`.
-/

namespace CookiFy

/-- Model of a JavaScript runtime value produced by `JSON.parse`.
Numbers are modelled as integers; no claim depends on non-integral
numerics. -/
inductive Json where
  | null
  | bool (b : Bool)
  | num (n : Int)
  | str (s : String)
  | arr (elems : List Json)
  | obj (fields : List (String × Json))

/-- JavaScript truthiness of a parsed value. -/
def jsTruthy : Json → Bool
  | .null => false
  | .bool b => b
  | .num n => n != 0
  | .str s => s != ""
  | .arr _ => true
  | .obj _ => true

/-- Member access `j.k` on a parsed value: a present field of an object
is `some`, everything else (absent field, non-object receiver) is JS
`undefined`, modelled as `none`.  Member access on `null` throws in JS;
each use site below folds that throw into the surrounding `catch`,
which at every call site of this model produces the same outcome as the
`undefined` path or is handled by an explicit `.null` case. -/
def jsGet : Json → String → Option Json
  | .obj fields, k => (fields.find? (fun p => p.1 == k)).map (fun p => p.2)
  | _, _ => none

/-- Member access followed by `.map`: JS `j.k.map(f)` succeeds exactly
when `j.k` is an array; any other value throws a `TypeError` (caught by
the enclosing `try` at the use sites). -/
def jsArrayField (j : Json) (k : String) : Option (List Json) :=
  match jsGet j k with
  | some (.arr xs) => some xs
  | _ => none

/-- Object-spread-with-override `{...j, k: v}`.  For a non-object the
spread contributes nothing observable to the claims (array index keys
are not modelled); key insertion order is abstracted, lookup semantics
are preserved. -/
def jsSpreadWith (j : Json) (k : String) (v : Json) : Json :=
  match j with
  | .obj fields => .obj ((fields.filter (fun p => p.1 != k)) ++ [(k, v)])
  | _ => .obj [(k, v)]

/-- JavaScript `Array.prototype.join(sep)`. -/
def joinWith (sep : String) : List String → String
  | [] => ""
  | [s] => s
  | s :: rest => s ++ sep ++ joinWith sep rest

/-- Infix test on character lists, the model of JS
`String.prototype.includes`. -/
def charsInfix (pat : List Char) : List Char → Bool
  | [] => pat.isEmpty
  | c :: cs => pat.isPrefixOf (c :: cs) || charsInfix pat cs

/-- JavaScript `s.includes(pat)`. -/
def jsIncludes (s pat : String) : Bool :=
  charsInfix pat.data s.data

/-- JavaScript `s.toLowerCase()`, modelled character-wise (the ASCII
range, which covers every keyword the tables test for). -/
def jsToLowerCase (s : String) : String :=
  String.mk (s.data.map Char.toLower)

/-- JavaScript `s.trim()`, modelled by dropping whitespace characters
from both ends of the character list (the ASCII whitespace range). -/
def jsTrim (s : String) : String :=
  String.mk (((s.data.dropWhile Char.isWhitespace).reverse.dropWhile
    Char.isWhitespace).reverse)

/-- Splitting loop of `jsSplitOnSpace`: `acc` holds the current field's
characters in reverse. -/
def splitSpaceAux : List Char → List Char → List String
  | [], acc => [String.mk acc.reverse]
  | c :: cs, acc =>
    if c = ' ' then String.mk acc.reverse :: splitSpaceAux cs []
    else splitSpaceAux cs (c :: acc)

/-- JavaScript `s.split(' ')`: fields between single-space separators,
keeping empty fields (`"a  b"` gives `["a", "", "b"]`, `""` gives
`[""]`). -/
def jsSplitOnSpace (s : String) : List String :=
  splitSpaceAux s.data []

/-- Substring containment as a proposition: `pat` occurs verbatim
inside `s`. -/
def strContains (s pat : String) : Prop :=
  ∃ a b, s = a ++ (pat ++ b)

/-- Whether JavaScript `btoa` throws on `s`: `btoa` raises
`InvalidCharacterError` exactly when its argument contains a code unit
above U+00FF (it only accepts Latin-1 input). -/
def jsBtoaThrows (s : String) : Bool :=
  s.data.any (fun c => 255 < c.toNat)

/-- Outcome of the primary image request: a base64 payload after a
successful fetch and blob conversion, a received non-ok response
(`!response.ok`), or a thrown error (network failure or a failed blob
conversion).  The two failure modes take different paths through the
source's `try`/`catch`, so they are kept apart. -/
inductive PrimaryFetchResult where
  | ok (imageBase64 : String)
  | notOk
  | threw

/-- Outcome of a `throw new Error(message)` escaping one of the service
functions, together with the `console.error(...)` diagnostics the
`catch` handler emitted just before throwing (in argument order). -/
structure ThrownError where
  message : String
  consoleError : List String

/-- External collaborators of the service layer.  Each field models one
JavaScript builtin or remote endpoint the source calls; quantifying
over `Env` quantifies over every possible behaviour of those
collaborators. -/
structure Env where
  /-- `ai.models.generateContent` on a text prompt: the `response.text`
  the hosted model returns for that prompt. -/
  generateContent : String → String
  /-- `ai.models.generateContent` on an (image, text) parts pair in
  `identifyIngredients`: the `response.text` returned for the given
  base64 image and instruction text. -/
  visionContent : String → String → String
  /-- `JSON.parse`: `some` of the parsed value, or `none` when it
  throws a `SyntaxError`. -/
  jsonParse : String → Option Json
  /-- The Hugging Face image endpoint: given the posted prompt, the
  converted base64 payload on success, and otherwise which of the two
  failure modes (non-ok response, or a throw from the fetch or the
  blob conversion) occurred. -/
  fetchPrimary : String → PrimaryFetchResult
  /-- The Pollinations image endpoint: given the request URL, `some`
  base64 payload on success, `none` on any failure. -/
  fetchSecondary : String → Option String
  /-- JavaScript `encodeURIComponent`. -/
  encodeURIComponent : String → String
  /-- `Math.floor(Math.random() * 1000000)` as drawn for the fallback
  image URL. -/
  randomSeed : Nat
  /-- `canvas.getContext('2d')`: `none` when graphics drawing is
  unavailable, otherwise the context, represented by its
  `measureText` width metric. -/
  canvasCtx : Option (String → Nat)
  /-- `canvas.toDataURL('image/jpeg', 0.8)` after the gradient and the
  given wrapped text lines have been drawn: the base64 payload of the
  encoded image, as a function of the drawn lines. -/
  canvasJpegData : List String → String
  /-- JavaScript `btoa` on inputs inside its Latin-1 domain.  The
  builtin's `InvalidCharacterError` throw on any larger code unit is
  modelled deterministically by the `jsBtoaThrows` guard at the call
  site, following the builtin's specification. -/
  btoa : String → String

/-! ## Personality directive table

`types.ts` is not part of the provided sources.  `ChefPersonality` is a
TypeScript string enum consumed by `getChefPersonalityPrompt`'s
`switch`; it is modelled from the spec. -/

/-- Modelled from the spec (`types.ts` is missing from the sources):
the persona identifier, a string-valued enum with four defined ids —
a refined-technique persona, a budget/family persona, a speed-cooking
persona and a default approachable-teaching persona.  The runtime
values are the enum member names. -/
def ChefPersonality := String

instance : DecidableEq ChefPersonality := fun a b => String.decEq a b

/-- Modelled from the spec: the refined-technique (Michelin) persona id. -/
def ChefPersonality.MICHELIN : ChefPersonality := "MICHELIN"

/-- Modelled from the spec: the budget/family persona id. -/
def ChefPersonality.BUDGET_MOM : ChefPersonality := "BUDGET_MOM"

/-- Modelled from the spec: the speed-cooking persona id. -/
def ChefPersonality.QUICK_CHEF : ChefPersonality := "QUICK_CHEF"

/-- Modelled from the spec: the default approachable-teaching persona id. -/
def ChefPersonality.NORMAL : ChefPersonality := "NORMAL"

/-- Directive text block returned for `ChefPersonality.MICHELIN`. -/
def michelinPersonalityText : String :=
  "\n        CHEF PERSONALITY: You are Chef Aria, a charismatic 28-year-old Michelin-starred chef with a warm, confident voice and infectious passion for culinary artistry.\n        - You speak with elegant enthusiasm, sharing sophisticated techniques in an approachable, inspiring way\n        - Your voice is melodic and engaging, like you're personally guiding someone through a masterclass\n        - You're generous with professional secrets and love explaining the \"why\" behind each technique\n        - You have a playful side, often adding charming anecdotes about your culinary journey\n        - You encourage experimentation while teaching precision, making gourmet cooking feel achievable\n        - Your tone is encouraging yet authoritative, with the confidence of someone who's mastered their craft\n        \n        For personalityTips, include 3-4 sophisticated insights delivered with Chef Aria's warm, professional charm and enthusiasm for teaching.\n      "

/-- Directive text block returned for `ChefPersonality.BUDGET_MOM`. -/
def budgetMomPersonalityText : String :=
  "\n        CHEF PERSONALITY: You are Chef Rosa, a vibrant 32-year-old working mom who's become a master of budget-friendly family cooking with boundless energy and practical wisdom.\n        - You speak with genuine warmth and understanding, like a supportive friend sharing hard-earned kitchen wisdom\n        - Your voice is upbeat and encouraging, with the confidence of someone who's solved every family meal challenge\n        - You're incredibly resourceful and love sharing money-saving discoveries with infectious enthusiasm\n        - You have a nurturing, can-do attitude that makes budget cooking feel empowering rather than limiting\n        - You speak from real experience, often mentioning how these tricks helped your own family\n        - Your tone is friendly, practical, and full of maternal wisdom that makes everyone feel capable\n        \n        For personalityTips, include 3-4 budget-savvy strategies shared with Chef Rosa's encouraging, family-focused warmth and practical expertise.\n      "

/-- Directive text block returned for `ChefPersonality.QUICK_CHEF`. -/
def quickChefPersonalityText : String :=
  "\n        CHEF PERSONALITY: You are Chef Luna, an energetic 26-year-old speed-cooking specialist with a bubbly, fast-paced voice and contagious enthusiasm for efficient cooking.\n        - You speak with high energy and excitement, like you're genuinely thrilled to share time-saving secrets\n        - Your voice is upbeat and motivating, with the enthusiasm of someone who loves solving kitchen efficiency puzzles\n        - You're incredibly organized and love sharing clever shortcuts with infectious passion\n        - You have a dynamic, can-do attitude that makes fast cooking feel fun and innovative rather than rushed\n        - You speak quickly but clearly, mirroring your efficient cooking style\n        - Your tone is encouraging and energetic, making time-pressed cooking feel like an exciting challenge\n        \n        For personalityTips, include 3-4 time-saving strategies delivered with Chef Luna's energetic, efficiency-focused enthusiasm and clever problem-solving approach.\n      "

/-- Directive text block returned by the `default` case (Chef Priya). -/
def normalPersonalityText : String :=
  "\n        CHEF PERSONALITY: You are Chef Priya, a friendly 29-year-old culinary instructor with a warm, approachable voice and genuine love for teaching home cooking.\n        - You speak with gentle confidence and encouraging warmth, like a favorite cooking teacher\n        - Your voice is clear and reassuring, making cooking feel accessible and enjoyable for everyone\n        - You're patient and thorough in explanations, with a natural teaching ability that builds confidence\n        - You have a balanced approach, sharing both traditional wisdom and modern conveniences\n        - You encourage creativity while providing solid foundations, making cooking feel both safe and adventurous\n        - Your tone is supportive and friendly, with the warmth of someone who truly wants to help others succeed\n        \n        For personalityTips, include 2-3 helpful cooking insights shared with Chef Priya's supportive, teaching-focused warmth and encouragement.\n      "

/-- The `switch` of `getChefPersonalityPrompt`: three labelled cases and
a `default` that also serves every unrecognized id. -/
def getChefPersonalityPrompt (personality : ChefPersonality) : String :=
  if personality = ChefPersonality.MICHELIN then michelinPersonalityText
  else if personality = ChefPersonality.BUDGET_MOM then budgetMomPersonalityText
  else if personality = ChefPersonality.QUICK_CHEF then quickChefPersonalityText
  else normalPersonalityText

/-! ## identifyIngredients -/

/-- The fixed instruction text sent along with the image. -/
def identifyIngredientsText : String :=
  "Analyze the provided image and identify all food ingredients visible. Respond ONLY with a JSON object that adheres to the provided schema. The JSON object must contain a single key, \"ingredients\", which holds an array of strings. If no ingredients are found, return an object with an empty ingredients array."

/-- `identifyIngredients`.  The `try` block trims the response, parses
it, and returns `result.ingredients || []`; the `catch` returns `[]`
for every thrown error (parse failure, or member access on a parsed
`null`).  The runtime return value is modelled as a `Json` value
(`Json.arr []` is the literal `[]`). -/
def identifyIngredients (env : Env) (base64Image : String) : Json :=
  let responseText := env.visionContent base64Image identifyIngredientsText
  match env.jsonParse (jsTrim responseText) with
  | none => Json.arr []
  | some result =>
    match result with
    | .null => Json.arr []
    | _ =>
      match jsGet result "ingredients" with
      | some v => if jsTruthy v then v else Json.arr []
      | none => Json.arr []

/-! ## generateRecipes -/

/-- The exclusion clause template interpolating `excludeIngredients`. -/
def exclusionClause (excludeIngredients : String) : String :=
  "\n    IMPORTANT: Do NOT include any of these ingredients or foods in any recipe: " ++ (excludeIngredients ++ ". Avoid them completely.")

/-- `exclusionText`: the clause when `excludeIngredients` and its trim
are truthy, `''` otherwise (`undefined` is `none`). -/
def exclusionTextOf : Option String → String
  | some s => if s != "" && jsTrim s != "" then exclusionClause s else ""
  | none => ""

/-- The flavor clause template of `generateRecipes`. -/
def flavorClause (flavorProfile : String) : String :=
  "\n    FLAVOR FOCUS: Create recipes that emphasize " ++ (flavorProfile ++ " flavors and taste profiles.")

/-- `flavorText`: the clause when `flavorProfile` is truthy and differs
from `'No Preference'`, `''` otherwise. -/
def flavorTextOf : Option String → String
  | some s => if s != "" && s != "No Preference" then flavorClause s else ""
  | none => ""

/-- The style clause template of `generateRecipes`. -/
def styleClause (recipeStyle : String) : String :=
  "\n    RECIPE STYLE: Create recipes in " ++ (recipeStyle ++ " cuisine style with authentic flavors and techniques.")

/-- `styleText`: the clause when `recipeStyle` is truthy and differs
from `'No Preference'`, `''` otherwise. -/
def styleTextOf : Option String → String
  | some s => if s != "" && s != "No Preference" then styleClause s else ""
  | none => ""

/-- The part of the `generateRecipes` prompt template that precedes the
`${exclusionText}${flavorText}${styleText}` holes. -/
def recipesPromptHead (ingredients : List String) (preference : String)
    (chefPersonality : ChefPersonality) : String :=
  "\n    " ++ (getChefPersonalityPrompt chefPersonality
    ++ ("\n    \n    Given the following ingredients: " ++ (joinWith ", " ingredients
    ++ (".\n    And the dietary preference: "
    ++ ((if preference = "None" then "no specific preference" else preference) ++ ".")))))

/-- The fixed tail of the `generateRecipes` prompt template, after the
`${styleText}` hole. -/
def recipesPromptTail : String :=
  "\n    \n    Generate 3 creative recipes that match your chef personality. For each recipe, provide:\n    1. A unique recipe name that reflects your cooking style\n    2. A complete list of all required ingredients with approximate quantities (including the ones provided)\n    3. The total cooking time (e.g., \"30 minutes\") - IMPORTANT: This should equal prep time + cook time\n    4. A difficulty level ('Easy', 'Medium', or 'Hard')\n    5. Step-by-step cooking instructions written in your personality style\n    6. Accurate calorie count per serving (e.g., \"320 calories\")\n    7. Serving size (e.g., \"Serves 4\" or \"2 portions\")\n    8. Detailed nutritional information per serving including:\n       - Protein content (e.g., \"25g\")\n       - Carbohydrates (e.g., \"45g\")\n       - Fat content (e.g., \"12g\")\n       - Fiber content (e.g., \"8g\")\n       - Sodium content (e.g., \"450mg\")\n    9. Prep time (e.g., \"10 minutes\") - Time for chopping, measuring, marinating\n    10. Cook time (e.g., \"20 minutes\") - Actual cooking/baking time\n    11. Chef personality tips specific to your cooking style (personalityTips array)\n    \n    CRITICAL TIMING RULES:\n    - Prep time + Cook time should approximately equal Total cooking time\n    - Keep times realistic (most home recipes are 15-60 minutes total)\n    - Don't use extremely long times unless it's a slow-cook recipe that explicitly requires it\n    - Be consistent: if total time is \"30 minutes\", prep + cook should add up to around 30 minutes\n    \n    Calculate nutritional values based on standard ingredient nutritional data and typical serving sizes.\n    Be accurate with calorie calculations considering cooking methods and portion sizes.\n    Write instructions and tips that reflect your chef personality throughout.\n    \n    Respond with ONLY a JSON object that matches the specified schema.\n  "

/-- The full `generateRecipes` prompt template. -/
def generateRecipesPrompt (ingredients : List String) (preference : String)
    (excludeIngredients : Option String) (chefPersonality : ChefPersonality)
    (flavorProfile recipeStyle : Option String) : String :=
  recipesPromptHead ingredients preference chefPersonality
    ++ (exclusionTextOf excludeIngredients
    ++ (flavorTextOf flavorProfile
    ++ (styleTextOf recipeStyle ++ recipesPromptTail)))

/-- The error thrown by `generateRecipes`' catch handler, together with
its `console.error` diagnostics. -/
def recipeParseError (responseText : String) : ThrownError :=
  ⟨"Could not parse recipe data from AI.",
   ["Failed to parse recipes from Gemini response:", responseText]⟩

/-- `generateRecipes`: build the prompt, call the model, trim and parse
the response, and stamp `chefPersonality` onto each element of
`result.recipes`.  Parse failure, a missing or non-array `recipes`
field, and member access on a parsed `null` all throw inside the `try`
and reach the same `catch`. -/
def generateRecipes (env : Env) (ingredients : List String) (preference : String)
    (excludeIngredients : Option String) (chefPersonality : ChefPersonality)
    (flavorProfile recipeStyle : Option String) : Except ThrownError (List Json) :=
  let prompt := generateRecipesPrompt ingredients preference excludeIngredients
    chefPersonality flavorProfile recipeStyle
  let responseText := env.generateContent prompt
  match env.jsonParse (jsTrim responseText) with
  | none => .error (recipeParseError responseText)
  | some result =>
    match jsArrayField result "recipes" with
    | none => .error (recipeParseError responseText)
    | some recipes =>
      .ok (recipes.map (fun recipe =>
        jsSpreadWith recipe "chefPersonality" (Json.str chefPersonality)))

/-! ## Cooking-method and presentation keyword tables -/

/-- `extractCookingMethod`: first-match-wins keyword scan over the
lower-cased, space-joined instructions. -/
def extractCookingMethod (instructions : List String) : String :=
  let instructionsText := (jsToLowerCase (joinWith " " instructions))
  if jsIncludes instructionsText "bake" || jsIncludes instructionsText "oven" then "baked to perfection"
  else if jsIncludes instructionsText "fry" || jsIncludes instructionsText "pan" then "pan-fried until golden"
  else if jsIncludes instructionsText "grill" then "grilled with char marks"
  else if jsIncludes instructionsText "boil" || jsIncludes instructionsText "simmer" then "simmered carefully"
  else if jsIncludes instructionsText "steam" then "steamed delicately"
  else if jsIncludes instructionsText "roast" then "roasted until tender"
  else if jsIncludes instructionsText "sauté" then "sautéed with herbs"
  else if jsIncludes instructionsText "mix" || jsIncludes instructionsText "toss" then "artfully combined"
  else "expertly prepared"

/-- `determinePresentationStyle`: first-match-wins keyword scan over
the lower-cased recipe name and ingredient text. -/
def determinePresentationStyle (recipeName : String) (ingredients : List String) : String :=
  let name := jsToLowerCase recipeName
  let ingredientText := jsToLowerCase (joinWith " " ingredients)
  if jsIncludes name "salad" then "fresh greens and colorful vegetables arranged elegantly on a clean white plate"
  else if jsIncludes name "soup" || jsIncludes name "broth" then "served in a beautiful ceramic bowl with garnish on a marble surface"
  else if jsIncludes name "pasta" || jsIncludes name "noodle" then "perfectly twirled pasta with sauce coating on an elegant plate"
  else if jsIncludes name "steak" || jsIncludes name "chicken" || jsIncludes name "fish" then "tender protein as the centerpiece with sides on a slate board"
  else if jsIncludes name "curry" || jsIncludes name "stew" then "rich, aromatic sauce with visible ingredients in a traditional serving bowl"
  else if jsIncludes name "sandwich" || jsIncludes name "burger" then "layered ingredients and toasted bread on parchment paper with a clean background"
  else if jsIncludes name "pizza" then "golden crust with melted cheese and toppings on a pizza stone"
  else if jsIncludes name "dessert" || jsIncludes name "cake" || jsIncludes ingredientText "sugar" then "elegant plating with decorative elements on fine dinnerware"
  else if jsIncludes ingredientText "rice" then "fluffy rice with colorful ingredients mixed in a beautiful serving dish"
  else if jsIncludes name "smoothie" || jsIncludes name "drink" then "in a stylish glass with garnish against a clean backdrop"
  else "artisanal presentation with modern plating on neutral background"

/-! ## Image fallback chain -/

/-- The structural recipe argument of `generateRecipeImage`. -/
structure ImageRecipe where
  recipeName : String
  ingredients : List String
  instructions : List String

/-- The detailed prompt posted to the primary image backend. -/
def imagePrompt (recipe : ImageRecipe) : String :=
  let mainIngredients := joinWith ", " (recipe.ingredients.take 5)
  let cookingMethod := extractCookingMethod recipe.instructions
  let presentationStyle := determinePresentationStyle recipe.recipeName recipe.ingredients
  "A professional, high-resolution food photography of \"" ++ (recipe.recipeName
    ++ ("\" featuring " ++ (mainIngredients
    ++ (". The dish is " ++ (cookingMethod
    ++ (" and beautifully plated with " ++ (presentationStyle
    ++ ". Studio lighting, appetizing, restaurant-quality presentation, garnished appropriately, clean modern styling, natural lighting, culinary art, food styling")))))))

/-- The request URL of the secondary (Pollinations) backend, with the
re-encoded shorter prompt and the random seed. -/
def fallbackImageUrl (env : Env) (recipe : ImageRecipe) : String :=
  let mainIngredients := joinWith " " (recipe.ingredients.take 3)
  let prompt := env.encodeURIComponent ("professional food photography "
    ++ (recipe.recipeName ++ (" with " ++ (mainIngredients
    ++ " beautifully plated restaurant quality"))))
  "https://image.pollinations.ai/prompt/" ++ (prompt
    ++ ("?width=512&height=512&seed=" ++ toString env.randomSeed))

/-- The text-wrapping loop of `generatePlaceholderImage`: `measure` is
the context's `measureText` width; `currentLine` and `lines` are the
loop state.  The final `lines.push(currentLine)` is the base case. -/
def wrapLines (measure : String → Nat) : List String → String → List String → List String
  | [], currentLine, lines => lines ++ [currentLine]
  | word :: words, currentLine, lines =>
    let testLine := currentLine ++ ((if currentLine != "" then " " else "") ++ word)
    if 400 < measure testLine && currentLine != "" then
      wrapLines measure words word (lines ++ [currentLine])
    else
      wrapLines measure words testLine lines

/-- The wrapped text lines drawn for `recipeName`. -/
def wrapText (measure : String → Nat) (recipeName : String) : List String :=
  wrapLines measure (jsSplitOnSpace recipeName) "" []

/-- The SVG document of the minimal placeholder, interpolating
`recipeName` into the text element. -/
def placeholderSvg (recipeName : String) : String :=
  "\n        <svg width=\"512\" height=\"512\" xmlns=\"http://www.w3.org/2000/svg\">\n            <defs>\n                <linearGradient id=\"grad\" x1=\"0%\" y1=\"0%\" x2=\"100%\" y2=\"100%\">\n                    <stop offset=\"0%\" style=\"stop-color:#ff6b6b;stop-opacity:1\" />\n                    <stop offset=\"100%\" style=\"stop-color:#4ecdc4;stop-opacity:1\" />\n                </linearGradient>\n            </defs>\n            <rect width=\"512\" height=\"512\" fill=\"url(#grad)\" />\n            <text x=\"256\" y=\"256\" font-family=\"Arial\" font-size=\"24\" font-weight=\"bold\" text-anchor=\"middle\" fill=\"white\">" ++ (recipeName ++ "</text>\n        </svg>\n    ")

/-- `generatePlaceholderImage`: with a canvas context, draw the
gradient and the wrapped recipe-name lines and return the JPEG data
URL; without one, return the base64 SVG data URI embedding the name.
The canvas branch cannot fail, but the SVG branch calls `btoa` on a
document embedding the recipe name, and `btoa` throws
`InvalidCharacterError` when the name contains a code unit above
U+00FF; the error value is that exception's name. -/
def generatePlaceholderImage (env : Env) (recipeName : String) : Except String String :=
  match env.canvasCtx with
  | some measure =>
    .ok ("data:image/jpeg;base64," ++ env.canvasJpegData (wrapText measure recipeName))
  | none =>
    if jsBtoaThrows (placeholderSvg recipeName) then .error "InvalidCharacterError"
    else .ok ("data:image/svg+xml;base64," ++ env.btoa (placeholderSvg recipeName))

/-- `generateRecipeImageFallback`: try the secondary backend; on any
failure (non-ok response, thrown error, blob conversion failure) fall
through to the local placeholder, whose call sits inside the `catch`
handler — if the placeholder itself throws, the error escapes this
function. -/
def generateRecipeImageFallback (env : Env) (recipe : ImageRecipe) : Except String String :=
  match env.fetchSecondary (fallbackImageUrl env recipe) with
  | some imageBase64 => .ok imageBase64
  | none => generatePlaceholderImage env recipe.recipeName

/-- `generateRecipeImage`: try the primary backend.  On a non-ok
response the fallback is awaited inside the `try`, so a fallback
rejection is caught by the outer `catch`, which attempts the fallback
once more (in this deterministic model the retry returns the same
value); on a thrown error the single fallback attempt runs inside the
`catch` handler.  Either way a placeholder failure escapes to the
caller. -/
def generateRecipeImage (env : Env) (recipe : ImageRecipe) : Except String String :=
  match env.fetchPrimary (imagePrompt recipe) with
  | .ok imageBase64 => .ok imageBase64
  | .notOk =>
    match generateRecipeImageFallback env recipe with
    | .ok imageBase64 => .ok imageBase64
    | .error _ => generateRecipeImageFallback env recipe
  | .threw => generateRecipeImageFallback env recipe

/-! ## Cooking schedule -/

/-- Modelled from the spec (`types.ts` is missing from the sources):
the per-serving nutrition breakdown of a `Recipe`, five free-form
quantity strings. -/
structure Nutrition where
  protein : String
  carbs : String
  fat : String
  fiber : String
  sodium : String

/-- Modelled from the spec (`types.ts` is missing from the sources):
a typed application `Recipe` — name, ingredient list, timing fields,
difficulty, instructions sequence, calories, serving size, nutrition
breakdown, persona id and persona tips.  `servingAdjustment` is the
dynamic extra field the scheduler reads through `(recipe as any)`;
difficulty is kept free-form since only its text is interpolated. -/
structure Recipe where
  recipeName : String
  ingredients : List String
  cookingTime : String
  difficulty : String
  instructions : List String
  calories : String
  servingSize : String
  nutrition : Nutrition
  prepTime : String
  cookTime : String
  chefPersonality : ChefPersonality
  personalityTips : List String
  servingAdjustment : Option Int

/-- Modelled from the spec (`types.ts` is missing from the sources):
the schedule request — a list of recipes plus kitchen constraints. -/
structure CookingPathRequest where
  recipes : List Recipe
  skillLevel : String
  kitchenEquipment : Option (List String)
  preferredServingTime : Option String

/-- JavaScript `(recipe as any).servingAdjustment || 1`. -/
def jsOrOne : Option Int → Int
  | some n => if n = 0 then 1 else n
  | none => 1

/-- The per-recipe record assembled by `generateCookingSchedule`'s
`recipesInfo` map. -/
structure RecipeInfo where
  name : String
  ingredients : List String
  instructions : List String
  prepTime : String
  cookTime : String
  difficulty : String
  servingSize : String
  servingAdjustment : Int
  adjustmentNote : String

/-- One element of `recipesInfo`, with the `||` defaults of the
source. -/
def recipeInfoOf (recipe : Recipe) : RecipeInfo :=
  let servingAdjustment := jsOrOne recipe.servingAdjustment
  let adjustmentNote :=
    if servingAdjustment != 1 then
      "(Serving size adjusted by " ++ (toString servingAdjustment
        ++ ("x - " ++ (recipe.servingSize ++ ")")))
    else ""
  { name := recipe.recipeName
    ingredients := recipe.ingredients
    instructions := recipe.instructions
    prepTime := if recipe.prepTime != "" then recipe.prepTime else "10 minutes"
    cookTime := if recipe.cookTime != "" then recipe.cookTime else recipe.cookingTime
    difficulty := recipe.difficulty
    servingSize := if recipe.servingSize != "" then recipe.servingSize else "Serves 2-4"
    servingAdjustment := servingAdjustment
    adjustmentNote := adjustmentNote }

/-- One `Recipe ${index + 1}: ...` block of the schedule prompt. -/
def recipeBlock (index : Nat) (recipe : RecipeInfo) : String :=
  "\n        Recipe " ++ toString (index + 1) ++ ": " ++ recipe.name
    ++ "\n        - Serving Size: " ++ recipe.servingSize ++ " " ++ recipe.adjustmentNote
    ++ "\n        - Prep Time: " ++ recipe.prepTime
    ++ "\n        - Cook Time: " ++ recipe.cookTime
    ++ "  \n        - Total Time: " ++ recipe.cookTime
    ++ "\n        - Difficulty: " ++ recipe.difficulty
    ++ "\n        - Serving Adjustment Factor: " ++ toString recipe.servingAdjustment
    ++ "x\n        - Key Ingredients: " ++ joinWith ", " (recipe.ingredients.take 5)
    ++ "\n        - Brief Instructions: " ++ joinWith " | " (recipe.instructions.take 3)
    ++ "\n        "

/-- One `- name: Nx servings (size)` line of the adjustment warning. -/
def adjustmentLine (r : RecipeInfo) : String :=
  "- " ++ r.name ++ ": " ++ toString r.servingAdjustment
    ++ "x servings (" ++ r.servingSize ++ ")"

/-- The warning block emitted when some recipe has a serving
adjustment. -/
def servingAdjustmentBlock (recipesInfo : List RecipeInfo) : String :=
  "\n        ⚠️ IMPORTANT: Some recipes have been adjusted for different serving sizes:\n        "
    ++ joinWith "\n        "
         ((recipesInfo.filter (fun r => r.servingAdjustment != 1)).map adjustmentLine)
    ++ "\n        \n        When creating the schedule, account for these serving adjustments:\n        - Larger serving sizes (>2x) may need extra prep time for chopping/mixing\n        - Larger portions may require bigger pots/pans and longer cooking times\n        - Multiple smaller batches might be needed if equipment is limited\n        - Adjust ingredient prep times proportionally to serving size changes\n        - Consider if cooking in batches is more efficient than one large batch\n        "

/-- The fixed tail of the schedule prompt after the serving-size
considerations hole. -/
def schedulePromptTail : String :=
  "\n        \n        CREATE AN OPTIMIZED COOKING SCHEDULE that:\n        1. Minimizes total cooking time through parallel preparation\n        2. Reduces kitchen downtime (e.g., start marinating while prep continues)\n        3. Coordinates multiple dishes to finish simultaneously or in logical sequence\n        4. Considers equipment limitations (only one oven, limited stovetop space)\n        5. Accounts for skill level and provides appropriate guidance\n        6. RESPECTS SERVING SIZE ADJUSTMENTS: Factor in extra prep/cook time for larger portions\n        7. USES REALISTIC TIMING: If a recipe says prep 15min + cook 20min, don't schedule it for 4 hours\n        8. RESPECTS PREFERRED SERVING TIME: If user wants food ready at specific time, calculate backwards\n        \n        TIMING CALCULATION RULES:\n        - Start with the user's preferred serving time and work backwards\n        - Account for actual prep and cook times from each recipe\n        - Add buffer time for coordination (5-10 minutes)\n        - For recipes with serving adjustments >1.5x, add 20-30% more prep time\n        - For recipes with serving adjustments <0.8x, may reduce prep time by 10-15%\n        - Total schedule time should be reasonable (usually 30 minutes to 2 hours max)\n        - If no serving time specified, assume user wants to start cooking now\n        6. Uses realistic timing - no steps shorter than 2 minutes, most steps 5-15 minutes\n        7. Provides clear, actionable descriptions for each step\n        \n        TIMING GUIDELINES:\n        - Prep steps: typically 5-15 minutes each\n        - Active cooking: 3-20 minutes depending on technique\n        - Passive cooking: 10-60 minutes (baking, simmering, etc.)\n        - Start times should be multiples of 5 minutes for clarity\n        - Build in buffer time between critical steps\n        \n        STEP TYPES:\n        - \"prep\": Chopping, measuring, marinating (can be done in parallel)\n        - \"active\": Requires constant attention (stirring, sautéing)\n        - \"passive\": Hands-off cooking (baking, simmering, marinating)\n        \n        PRIORITY LEVELS:\n        - \"high\": Critical timing, cannot be delayed\n        - \"medium\": Some flexibility in timing\n        - \"low\": Can be done whenever convenient\n        \n        For each step, provide:\n        - Unique ID (step1, step2, etc.)\n        - Recipe ID (recipe1, recipe2, etc.)\n        - Clear, actionable step description\n        - Start time in minutes from cooking start (0 = begin immediately)\n        - Duration in minutes\n        - Step type and priority\n        - Required equipment if specific\n        - Pro tips for efficiency\n        \n        Calculate realistic timing based on:\n        - Prep work that can be done simultaneously\n        - Cooking processes that can overlap\n        - Rest/wait times that allow other tasks\n        - Realistic multitasking for the given skill level\n        \n        Provide efficiency tips and a summary timeline that explains the cooking flow.\n        \n        Respond with ONLY a JSON object that matches the specified schema.\n    "

/-- The full schedule prompt template. -/
def cookingSchedulePrompt (request : CookingPathRequest) : String :=
  let recipesInfo := request.recipes.map recipeInfoOf
  "\n        You are a professional kitchen scheduler tasked with creating an optimized cooking timeline for multiple recipes.\n        \n        RECIPES TO COORDINATE:\n        "
    ++ joinWith "\n" (recipesInfo.enum.map (fun p => recipeBlock p.1 p.2))
    ++ "\n        \n        KITCHEN SETUP:\n        - Skill Level: " ++ request.skillLevel
    ++ "\n        - Available Equipment: "
    ++ (match request.kitchenEquipment with
        | some equipment =>
          if joinWith ", " equipment != "" then joinWith ", " equipment
          else "Standard home kitchen"
        | none => "Standard home kitchen")
    ++ "\n        - Preferred Serving Time: "
    ++ (match request.preferredServingTime with
        | some t => if t != "" then t else "ASAP"
        | none => "ASAP")
    ++ "\n        \n        SERVING SIZE CONSIDERATIONS:\n        "
    ++ (if recipesInfo.any (fun r => r.servingAdjustment != 1) then
          servingAdjustmentBlock recipesInfo
        else "All recipes are at their original serving sizes.")
    ++ schedulePromptTail

/-- The typed result of `generateCookingSchedule`.  The five fields
copied from the parsed response are raw JS values (possibly
`undefined`, modelled as `none`); `recipes` is the caller's input
list. -/
structure CookingSchedule where
  totalTime : Option Json
  servingTime : Option Json
  steps : Option Json
  recipes : List Recipe
  efficiencyTips : Option Json
  timelineSummary : Option Json

/-- The error thrown by `generateCookingSchedule`'s catch handler,
with its `console.error` diagnostics. -/
def scheduleParseError (responseText : String) : ThrownError :=
  ⟨"Could not parse cooking schedule data from AI.",
   ["Failed to parse cooking schedule from Gemini response:", responseText]⟩

/-- `generateCookingSchedule`: build the prompt, call the model, parse
the trimmed response, and assemble the schedule from the parsed
fields — except `recipes`, which is taken from the request.  A parse
failure, or member access on a parsed `null`, throws inside the `try`
and reaches the catch handler. -/
def generateCookingSchedule (env : Env) (request : CookingPathRequest) :
    Except ThrownError CookingSchedule :=
  let prompt := cookingSchedulePrompt request
  let responseText := env.generateContent prompt
  match env.jsonParse (jsTrim responseText) with
  | none => .error (scheduleParseError responseText)
  | some result =>
    match result with
    | .null => .error (scheduleParseError responseText)
    | _ =>
      .ok { totalTime := jsGet result "totalTime"
            servingTime := jsGet result "servingTime"
            steps := jsGet result "steps"
            recipes := request.recipes
            efficiencyTips := jsGet result "efficiencyTips"
            timelineSummary := jsGet result "timelineSummary" }

/-! ## reinventRecipe -/

/-- Modelled from the spec (`types.ts` is missing from the sources):
the designated no-preference sentinel of the flavor filter. -/
def FlavorProfile.NONE : String := "No Preference"

/-- Modelled from the spec (`types.ts` is missing from the sources):
the designated no-preference sentinel of the style filter. -/
def RecipeStyle.NONE : String := "No Preference"

/-- Modelled from the spec (`types.ts` is missing from the sources):
the reinvention request — a dish name, a persona and the optional
filters. -/
structure RecipeReinventionRequest where
  dishName : String
  chefPersonality : ChefPersonality
  dietaryPreference : Option String
  excludeIngredients : Option String
  flavorProfile : Option String
  recipeStyle : Option String

/-- The flavor clause template of `reinventRecipe`. -/
def reinventFlavorClause (flavorProfile : String) : String :=
  "\n    FLAVOR FOCUS: Create reinvented versions that emphasize "
    ++ (flavorProfile ++ " flavors and taste profiles.")

/-- `flavorText` of `reinventRecipe`: the clause when the filter is
truthy and differs from `FlavorProfile.NONE`. -/
def reinventFlavorTextOf : Option String → String
  | some s => if s != "" && s != FlavorProfile.NONE then reinventFlavorClause s else ""
  | none => ""

/-- The style clause template of `reinventRecipe`. -/
def reinventStyleClause (recipeStyle : String) : String :=
  "\n    RECIPE STYLE: Create reinvented versions in "
    ++ (recipeStyle ++ " cuisine style with authentic flavors and techniques.")

/-- `styleText` of `reinventRecipe`: the clause when the filter is
truthy and differs from `RecipeStyle.NONE`. -/
def reinventStyleTextOf : Option String → String
  | some s => if s != "" && s != RecipeStyle.NONE then reinventStyleClause s else ""
  | none => ""

/-- The part of the reinvention prompt preceding the
`${exclusionText}${flavorText}${styleText}` holes.  The exclusion
clause template and its guard are the same text as in
`generateRecipes`, so `exclusionTextOf` is shared. -/
def reinventPromptHead (request : RecipeReinventionRequest) : String :=
  "\n        " ++ getChefPersonalityPrompt request.chefPersonality
    ++ "\n        \n        RECIPE REINVENTION CHALLENGE: Take the classic dish \"" ++ request.dishName
    ++ "\" and completely reinvent it with your chef personality!\n        \n        Your task is to create 3 innovative versions of \"" ++ request.dishName
    ++ "\" that:\n        1. Keep the essence and recognizable elements of the original dish\n        2. Add your unique chef personality twist and creativity\n        3. Use modern techniques, interesting ingredient swaps, or presentation styles\n        4. Maintain the spirit of \"" ++ request.dishName
    ++ "\" while making it distinctly YOUR creation\n        \n        Dietary preference: "
    ++ (match request.dietaryPreference with
        | some s => if s != "" then s else "no specific preference"
        | none => "no specific preference")

/-- The fixed tail of the reinvention prompt, with its one remaining
`${request.dishName}` hole. -/
def reinventPromptTail (dishName : String) : String :=
  "\n        \n        For each reinvented recipe, provide:\n        1. A creative new name that shows it's an innovative version of \"" ++ dishName
    ++ "\"\n        2. Complete ingredient list with quantities (reinvented but recognizable)\n        3. Total cooking time (realistic: prep time + cook time)\n        4. Difficulty level ('Easy', 'Medium', or 'Hard')\n        5. Step-by-step instructions that reflect your chef personality\n        6. Accurate calorie count per serving\n        7. Serving size information\n        8. Detailed nutritional breakdown per serving\n        9. Prep time and cook time that add up to total time\n        10. Personality tips that explain your reinvention approach\n        \n        REINVENTION IDEAS for different chef personalities:\n        - Michelin Chef: Elevate with premium ingredients, advanced techniques, refined presentation\n        - Budget Mom: Make it family-friendly, cost-effective, kid-approved with smart substitutions\n        - Quick Chef: Speed it up with shortcuts, one-pot methods, meal prep friendly versions\n        - Normal Chef: Balance tradition with modern touches, accessible improvements\n        \n        Examples of good reinventions:\n        - \"Maggi\" → Gourmet Truffle Ramen, Veggie-Packed Family Noodles, 5-Minute Protein Bowl\n        - \"Fish Finger\" → Herb-Crusted Fish Goujons, Baked Cod Nuggets, Spicy Fish Tacos\n        - \"Chicken Dum Biryani\" → Saffron Chicken Rice Bowl, Quick Chicken Biryani Skillet, Layered Biryani Casserole\n        \n        Make each version distinct while honoring the original dish. Be creative but practical!\n        \n        Respond with ONLY a JSON object that matches the specified schema.\n    "

/-- The full reinvention prompt template. -/
def reinventRecipePrompt (request : RecipeReinventionRequest) : String :=
  reinventPromptHead request
    ++ (exclusionTextOf request.excludeIngredients
    ++ (reinventFlavorTextOf request.flavorProfile
    ++ (reinventStyleTextOf request.recipeStyle
    ++ reinventPromptTail request.dishName)))

/-- The error thrown by `reinventRecipe`'s catch handler, with its
`console.error` diagnostics. -/
def reinventParseError (responseText : String) : ThrownError :=
  ⟨"Could not parse reinvented recipe data from AI.",
   ["Failed to parse reinvented recipes from Gemini response:", responseText]⟩

/-- `reinventRecipe`: build the prompt, call the model, parse the
trimmed response, and stamp `request.chefPersonality` onto each
element of `result.recipes`, exactly as in `generateRecipes`. -/
def reinventRecipe (env : Env) (request : RecipeReinventionRequest) :
    Except ThrownError (List Json) :=
  let prompt := reinventRecipePrompt request
  let responseText := env.generateContent prompt
  match env.jsonParse (jsTrim responseText) with
  | none => .error (reinventParseError responseText)
  | some result =>
    match jsArrayField result "recipes" with
    | none => .error (reinventParseError responseText)
    | some recipes =>
      .ok (recipes.map (fun recipe =>
        jsSpreadWith recipe "chefPersonality" (Json.str request.chefPersonality)))

/-! ## Supporting lemmas -/

theorem jsGet_jsSpreadWith (j : Json) (k : String) (v : Json) :
    jsGet (jsSpreadWith j k v) k = some v := by
  cases j <;> simp [jsSpreadWith, jsGet, List.find?_append]

theorem jsArrayField_eq_none_of_jsGet_eq_none {j : Json} {k : String}
    (h : jsGet j k = none) : jsArrayField j k = none := by
  unfold jsArrayField
  rw [h]

theorem append_ne_empty_left (a b : String) (h : a ≠ "") : a ++ b ≠ "" := by
  intro hab
  apply h
  have hlen := congrArg String.length hab
  rw [String.length_append] at hlen
  have hz : String.length "" = 0 := rfl
  rw [hz] at hlen
  have ha : a.length = 0 := by omega
  cases a with
  | mk data =>
    cases data with
    | nil => rfl
    | cons c cs => simp [String.length] at ha

/-! ## Concrete environments used by the witnesses -/

/-- A base environment whose external collaborators all fail or return
fixed values; witnesses override single fields. -/
def testEnv (parse : String → Option Json) : Env :=
  { generateContent := fun _ => "raw response"
    visionContent := fun _ _ => "raw response"
    jsonParse := parse
    fetchPrimary := fun _ => .threw
    fetchSecondary := fun _ => none
    encodeURIComponent := fun s => s
    randomSeed := 0
    canvasCtx := none
    canvasJpegData := fun _ => ""
    btoa := fun s => s }

/-- Environment in which `JSON.parse` always throws. -/
def envNoParse : Env := testEnv (fun _ => none)

/-- Environment in which every response parses to the empty object. -/
def envEmptyObj : Env := testEnv (fun _ => some (Json.obj []))

/-- Environment in which every response parses to an object whose
`recipes` field is a one-element array holding the empty object. -/
def envOneRecipe : Env :=
  testEnv (fun _ => some (Json.obj [("recipes", Json.arr [Json.obj []])]))

/-- A concrete reinvention request for witnesses. -/
def reqReinvent : RecipeReinventionRequest :=
  { dishName := "Maggi"
    chefPersonality := ChefPersonality.QUICK_CHEF
    dietaryPreference := none
    excludeIngredients := none
    flavorProfile := none
    recipeStyle := none }

/-- A concrete schedule request for witnesses. -/
def reqSchedule : CookingPathRequest :=
  { recipes := []
    skillLevel := "Beginner"
    kitchenEquipment := none
    preferredServingTime := none }

/-! ## Claim C3 -/

/-- Claim C3: for every response payload whose text fails JSON parsing,
`identifyIngredients` returns the empty list (the literal `[]`) and
does not raise. -/
theorem identifyIngredients_parse_failure_returns_empty (env : Env) (base64Image : String)
    (h : env.jsonParse (jsTrim (env.visionContent base64Image identifyIngredientsText)) = none) :
    identifyIngredients env base64Image = Json.arr [] := by
  simp [identifyIngredients, h]

/-- Witness for C3 at a concrete environment whose parse always
throws. -/
theorem identifyIngredients_parse_failure_returns_empty_witness :
    envNoParse.jsonParse (jsTrim (envNoParse.visionContent "img" identifyIngredientsText)) = none ∧
    identifyIngredients envNoParse "img" = Json.arr [] :=
  ⟨rfl, identifyIngredients_parse_failure_returns_empty envNoParse "img" rfl⟩

/-! ## Claim C9 -/

/-- Claim C9: when the payload parses but the `ingredients` field is
missing, `null`, or otherwise falsy, `identifyIngredients` returns the
empty list. -/
theorem identifyIngredients_falsy_field_returns_empty (env : Env) (base64Image : String)
    (j : Json)
    (hp : env.jsonParse (jsTrim (env.visionContent base64Image identifyIngredientsText)) = some j)
    (hf : jsGet j "ingredients" = none ∨
          ∃ v, jsGet j "ingredients" = some v ∧ jsTruthy v = false) :
    identifyIngredients env base64Image = Json.arr [] := by
  rcases hf with hnone | ⟨v, hv, hfalsy⟩
  · cases j <;> simp [identifyIngredients, hp, hnone]
  · cases j <;> simp [identifyIngredients, hp, hv, hfalsy]

/-- Witness for C9 at a concrete environment whose responses parse to
an object with no `ingredients` field. -/
theorem identifyIngredients_falsy_field_returns_empty_witness :
    envEmptyObj.jsonParse (jsTrim (envEmptyObj.visionContent "img" identifyIngredientsText))
      = some (Json.obj []) ∧
    identifyIngredients envEmptyObj "img" = Json.arr [] :=
  ⟨rfl, identifyIngredients_falsy_field_returns_empty envEmptyObj "img" (Json.obj [])
    rfl (Or.inl rfl)⟩

/-! ## Claim C6 -/

/-- Claim C6: persona directive lookup is total and defaulting — each
of the four defined persona ids maps to its fixed text block, and any
unrecognized id maps to the default (Chef Priya) block. -/
theorem getChefPersonalityPrompt_total_lookup (personality : ChefPersonality) :
    (personality = ChefPersonality.MICHELIN →
       getChefPersonalityPrompt personality = michelinPersonalityText) ∧
    (personality = ChefPersonality.BUDGET_MOM →
       getChefPersonalityPrompt personality = budgetMomPersonalityText) ∧
    (personality = ChefPersonality.QUICK_CHEF →
       getChefPersonalityPrompt personality = quickChefPersonalityText) ∧
    (personality = ChefPersonality.NORMAL →
       getChefPersonalityPrompt personality = normalPersonalityText) ∧
    (personality ≠ ChefPersonality.MICHELIN →
     personality ≠ ChefPersonality.BUDGET_MOM →
     personality ≠ ChefPersonality.QUICK_CHEF →
       getChefPersonalityPrompt personality = normalPersonalityText) := by
  refine ⟨?_, ?_, ?_, ?_, ?_⟩
  · intro h; subst h; rfl
  · intro h; subst h; rfl
  · intro h; subst h; rfl
  · intro h; subst h; rfl
  · intro h1 h2 h3
    simp [getChefPersonalityPrompt, h1, h2, h3]

/-- Witness for C6: the Michelin id resolves to the Aria block and an
unrecognized id resolves to the default block. -/
theorem getChefPersonalityPrompt_total_lookup_witness :
    getChefPersonalityPrompt ChefPersonality.MICHELIN = michelinPersonalityText ∧
    getChefPersonalityPrompt ("LINE_COOK" : ChefPersonality) = normalPersonalityText :=
  ⟨(getChefPersonalityPrompt_total_lookup ChefPersonality.MICHELIN).1 rfl,
   (getChefPersonalityPrompt_total_lookup ("LINE_COOK" : ChefPersonality)).2.2.2.2
     (by decide) (by decide) (by decide)⟩

/-! ## Claim C4 -/

/-- Claim C4: every recipe returned by `generateRecipes` and by
`reinventRecipe` carries the requested persona id, regardless of what
the raw response contained. -/
theorem returned_recipes_carry_requested_persona
    (env : Env) (ingredients : List String) (preference : String)
    (excludeIngredients : Option String) (chefPersonality : ChefPersonality)
    (flavorProfile recipeStyle : Option String)
    (request : RecipeReinventionRequest) :
    (∀ out, generateRecipes env ingredients preference excludeIngredients
        chefPersonality flavorProfile recipeStyle = .ok out →
      ∀ r ∈ out, jsGet r "chefPersonality" = some (Json.str chefPersonality)) ∧
    (∀ out, reinventRecipe env request = .ok out →
      ∀ r ∈ out, jsGet r "chefPersonality" = some (Json.str request.chefPersonality)) := by
  constructor
  · intro out hok r hr
    simp only [generateRecipes] at hok
    split at hok
    · cases hok
    · split at hok
      · cases hok
      · cases hok
        rcases List.mem_map.mp hr with ⟨a, _, rfl⟩
        exact jsGet_jsSpreadWith a "chefPersonality" (Json.str chefPersonality)
  · intro out hok r hr
    simp only [reinventRecipe] at hok
    split at hok
    · cases hok
    · split at hok
      · cases hok
      · cases hok
        rcases List.mem_map.mp hr with ⟨a, _, rfl⟩
        exact jsGet_jsSpreadWith a "chefPersonality" (Json.str request.chefPersonality)

/-- Witness for C4: a concrete response whose one recipe object lacks
any persona id still comes back stamped with the requested one. -/
theorem returned_recipes_carry_requested_persona_witness :
    jsGet (Json.obj [("chefPersonality", Json.str ChefPersonality.MICHELIN)]) "chefPersonality"
      = some (Json.str ChefPersonality.MICHELIN) ∧
    jsGet (Json.obj [("chefPersonality", Json.str ChefPersonality.QUICK_CHEF)]) "chefPersonality"
      = some (Json.str ChefPersonality.QUICK_CHEF) :=
  ⟨(returned_recipes_carry_requested_persona envOneRecipe ["rice"] "None" none
      ChefPersonality.MICHELIN none none reqReinvent).1
      [Json.obj [("chefPersonality", Json.str ChefPersonality.MICHELIN)]] rfl
      _ (List.mem_singleton.mpr rfl),
   (returned_recipes_carry_requested_persona envOneRecipe ["rice"] "None" none
      ChefPersonality.MICHELIN none none reqReinvent).2
      [Json.obj [("chefPersonality", Json.str ChefPersonality.QUICK_CHEF)]] rfl
      _ (List.mem_singleton.mpr rfl)⟩

/-! ## Claim C10 -/

/-- Claim C10: the schedule returned by `generateCookingSchedule` has
`recipes` equal to the caller's `request.recipes`; the response's own
`recipes` array (the per-recipe completion estimates) is discarded —
the output is built only from the five other fields, so two responses
that differ at most in their `recipes` field produce identical
schedules. -/
theorem generateCookingSchedule_recipes_passthrough (env : Env)
    (request : CookingPathRequest) (j : Json)
    (hp : env.jsonParse (jsTrim (env.generateContent (cookingSchedulePrompt request))) = some j)
    (hnull : j ≠ Json.null) :
    generateCookingSchedule env request = .ok
      { totalTime := jsGet j "totalTime"
        servingTime := jsGet j "servingTime"
        steps := jsGet j "steps"
        recipes := request.recipes
        efficiencyTips := jsGet j "efficiencyTips"
        timelineSummary := jsGet j "timelineSummary" } ∧
    (∀ sched, generateCookingSchedule env request = .ok sched →
       sched.recipes = request.recipes) ∧
    (∀ (env₂ : Env) (j₂ : Json),
       env₂.jsonParse (jsTrim (env₂.generateContent (cookingSchedulePrompt request))) = some j₂ →
       j₂ ≠ Json.null →
       (∀ k, k ≠ "recipes" → jsGet j₂ k = jsGet j k) →
       generateCookingSchedule env₂ request = generateCookingSchedule env request) := by
  have hchar : ∀ (e : Env) (v : Json),
      e.jsonParse (jsTrim (e.generateContent (cookingSchedulePrompt request))) = some v →
      v ≠ Json.null →
      generateCookingSchedule e request = .ok
        { totalTime := jsGet v "totalTime"
          servingTime := jsGet v "servingTime"
          steps := jsGet v "steps"
          recipes := request.recipes
          efficiencyTips := jsGet v "efficiencyTips"
          timelineSummary := jsGet v "timelineSummary" } := by
    intro e v hpe hne
    cases v <;> simp_all [generateCookingSchedule, hpe]
  refine ⟨hchar env j hp hnull, ?_, ?_⟩
  · intro sched hok
    rw [hchar env j hp hnull] at hok
    cases hok
    rfl
  · intro env₂ j₂ hp₂ hnull₂ hagree
    rw [hchar env₂ j₂ hp₂ hnull₂, hchar env j hp hnull]
    have h1 := hagree "totalTime" (by decide)
    have h2 := hagree "servingTime" (by decide)
    have h3 := hagree "steps" (by decide)
    have h4 := hagree "efficiencyTips" (by decide)
    have h5 := hagree "timelineSummary" (by decide)
    rw [h1, h2, h3, h4, h5]

/-- Witness for C10 at a concrete environment whose responses parse to
the empty object. -/
theorem generateCookingSchedule_recipes_passthrough_witness :
    generateCookingSchedule envEmptyObj reqSchedule = .ok
      { totalTime := none
        servingTime := none
        steps := none
        recipes := reqSchedule.recipes
        efficiencyTips := none
        timelineSummary := none } :=
  (generateCookingSchedule_recipes_passthrough envEmptyObj reqSchedule (Json.obj [])
    rfl (fun h => Json.noConfusion h)).1

/-! ## Claim C2 (corrected) -/

/-- A raw response text longer than the fixed thrown message, so no
decomposition of the message can contain it. -/
def longRawResponse : String :=
  "this raw model response text from the generative backend is deliberately longer than the fixed thrown error message"

/-- Environment in which the model answers `longRawResponse` and
`JSON.parse` always throws. -/
def envLongRaw : Env :=
  { testEnv (fun _ => none) with generateContent := fun _ => longRawResponse }

/-- Counterexample to C2 as stated: on an unparseable payload the
thrown error itself carries only the fixed message
`"Could not parse recipe data from AI."`, which does not contain the
raw response text; the raw text appears only in the `console.error`
diagnostics emitted at the failure site. -/
theorem generateRecipes_error_message_lacks_raw_text :
    generateRecipes envLongRaw [] "None" none ChefPersonality.NORMAL none none
      = .error (recipeParseError longRawResponse) ∧
    (recipeParseError longRawResponse).message = "Could not parse recipe data from AI." ∧
    ¬ strContains (recipeParseError longRawResponse).message longRawResponse := by
  refine ⟨rfl, rfl, ?_⟩
  rintro ⟨a, b, h⟩
  have hlen := congrArg String.length h
  rw [String.length_append, String.length_append] at hlen
  have h1 : (recipeParseError longRawResponse).message.length = 36 := by decide
  have h2 : longRawResponse.length = 115 := by decide
  omega

/-- Claim C2 as amended: whenever the payload fails to parse or lacks
the required `recipes` key, `generateRecipes` throws the fixed-message
parse error and the original raw response text is part of the failure's
`console.error` diagnostics (not of the thrown message). -/
theorem generateRecipes_parse_failure_diagnostics
    (env : Env) (ingredients : List String) (preference : String)
    (excludeIngredients : Option String) (chefPersonality : ChefPersonality)
    (flavorProfile recipeStyle : Option String)
    (h : env.jsonParse (jsTrim (env.generateContent (generateRecipesPrompt ingredients preference
           excludeIngredients chefPersonality flavorProfile recipeStyle))) = none ∨
         ∃ j, env.jsonParse (jsTrim (env.generateContent (generateRecipesPrompt ingredients preference
           excludeIngredients chefPersonality flavorProfile recipeStyle))) = some j ∧
           jsGet j "recipes" = none) :
    generateRecipes env ingredients preference excludeIngredients chefPersonality
        flavorProfile recipeStyle
      = .error (recipeParseError (env.generateContent (generateRecipesPrompt ingredients
          preference excludeIngredients chefPersonality flavorProfile recipeStyle))) ∧
    (recipeParseError (env.generateContent (generateRecipesPrompt ingredients preference
        excludeIngredients chefPersonality flavorProfile recipeStyle))).message
      = "Could not parse recipe data from AI." ∧
    env.generateContent (generateRecipesPrompt ingredients preference excludeIngredients
        chefPersonality flavorProfile recipeStyle)
      ∈ (recipeParseError (env.generateContent (generateRecipesPrompt ingredients preference
          excludeIngredients chefPersonality flavorProfile recipeStyle))).consoleError := by
  refine ⟨?_, rfl, by simp [recipeParseError]⟩
  rcases h with hnone | ⟨j, hj, hget⟩
  · simp [generateRecipes, hnone]
  · simp [generateRecipes, hj, jsArrayField_eq_none_of_jsGet_eq_none hget]

/-- Witness for the amended C2 at a concrete environment whose parse
always throws. -/
theorem generateRecipes_parse_failure_diagnostics_witness :
    generateRecipes envLongRaw ["rice"] "Vegan" none ChefPersonality.NORMAL none none
      = .error (recipeParseError longRawResponse) ∧
    longRawResponse ∈ (recipeParseError longRawResponse).consoleError :=
  ⟨(generateRecipes_parse_failure_diagnostics envLongRaw ["rice"] "Vegan" none
      ChefPersonality.NORMAL none none (Or.inl rfl)).1,
   (generateRecipes_parse_failure_diagnostics envLongRaw ["rice"] "Vegan" none
      ChefPersonality.NORMAL none none (Or.inl rfl)).2.2⟩

/-! ## Claim C5 (corrected) -/

/-- Counterexample to C5 as stated: the instruction text `"oven"`
contains none of the keywords the claim lists (bake, fry, pan, grill,
boil, simmer, steam, roast, sauté, mix, toss) yet selects the baked
phrase, not the default phrase — the source's first table entry also
matches on `oven`. -/
theorem extractCookingMethod_oven_counterexample :
    extractCookingMethod ["oven"] = "baked to perfection" ∧
    (∀ kw ∈ (["bake", "fry", "pan", "grill", "boil", "simmer", "steam",
              "roast", "sauté", "mix", "toss"] : List String),
       jsIncludes ((jsToLowerCase (joinWith " " ["oven"]))) kw = false) ∧
    "baked to perfection" ≠ "expertly prepared" := by
  refine ⟨rfl, by decide, by decide⟩

/-- Claim C5 as amended: instructions containing `bake` select the
baked phrase; instructions containing none of the recognized keywords
(bake, **oven**, fry, pan, grill, boil, simmer, steam, roast, sauté,
mix, toss) select the default phrase `"expertly prepared"`; when both
`bake` and `grill` occur, the baked phrase wins (first match in
priority order). -/
theorem extractCookingMethod_keyword_selection (instructions : List String) :
    (jsIncludes ((jsToLowerCase (joinWith " " instructions))) "bake" = true →
       extractCookingMethod instructions = "baked to perfection") ∧
    ((∀ kw ∈ (["bake", "oven", "fry", "pan", "grill", "boil", "simmer", "steam",
               "roast", "sauté", "mix", "toss"] : List String),
        jsIncludes ((jsToLowerCase (joinWith " " instructions))) kw = false) →
       extractCookingMethod instructions = "expertly prepared") ∧
    (jsIncludes ((jsToLowerCase (joinWith " " instructions))) "bake" = true →
     jsIncludes ((jsToLowerCase (joinWith " " instructions))) "grill" = true →
       extractCookingMethod instructions = "baked to perfection") := by
  refine ⟨?_, ?_, ?_⟩
  · intro h
    simp [extractCookingMethod, h]
  · intro h
    have hbake := h "bake" (by simp)
    have hoven := h "oven" (by simp)
    have hfry := h "fry" (by simp)
    have hpan := h "pan" (by simp)
    have hgrill := h "grill" (by simp)
    have hboil := h "boil" (by simp)
    have hsimmer := h "simmer" (by simp)
    have hsteam := h "steam" (by simp)
    have hroast := h "roast" (by simp)
    have hsaute := h "sauté" (by simp)
    have hmix := h "mix" (by simp)
    have htoss := h "toss" (by simp)
    simp [extractCookingMethod, hbake, hoven, hfry, hpan, hgrill, hboil,
      hsimmer, hsteam, hroast, hsaute, hmix, htoss]
  · intro hb _
    simp [extractCookingMethod, hb]

/-- Witness for the amended C5: a bake-and-grill instruction selects
the baked phrase and a keyword-free instruction selects the default. -/
theorem extractCookingMethod_keyword_selection_witness :
    extractCookingMethod ["First bake it, then grill it."] = "baked to perfection" ∧
    extractCookingMethod ["Let it rest and serve."] = "expertly prepared" :=
  ⟨(extractCookingMethod_keyword_selection ["First bake it, then grill it."]).2.2
     (by decide) (by decide),
   (extractCookingMethod_keyword_selection ["Let it rest and serve."]).2.1 (by decide)⟩

/-! ## Claim C7 (corrected) -/

/-- Counterexample to C7 as stated: the non-empty exclusion string
`" "` produces no exclusion clause at all — the guard also requires the
trimmed string to be non-empty, so the built prompt is identical to the
prompt built with no exclusion. -/
theorem exclusion_clause_whitespace_counterexample :
    (" " : String) ≠ "" ∧
    exclusionTextOf (some " ") = "" ∧
    generateRecipesPrompt ["rice"] "None" (some " ") ChefPersonality.NORMAL none none
      = generateRecipesPrompt ["rice"] "None" none ChefPersonality.NORMAL none none := by
  refine ⟨by decide, by decide, ?_⟩
  have h : exclusionTextOf (some " ") = exclusionTextOf none := by decide
  unfold generateRecipesPrompt
  rw [h]

/-- Claim C7 as amended: an exclusion string that is empty or
whitespace-only yields a prompt with no exclusion clause (identical to
the prompt built with no exclusion); an exclusion string that is
non-empty after trimming yields the prompt with exactly one exclusion
clause inserted between the fixed head and the remaining clauses, and
that clause contains the exclusion text verbatim. -/
theorem exclusion_clause_embedding
    (ingredients : List String) (preference : String)
    (chefPersonality : ChefPersonality) (flavorProfile recipeStyle : Option String)
    (s : String) :
    (jsTrim s = "" →
       generateRecipesPrompt ingredients preference (some s) chefPersonality
           flavorProfile recipeStyle
         = generateRecipesPrompt ingredients preference none chefPersonality
             flavorProfile recipeStyle) ∧
    (jsTrim s ≠ "" →
       generateRecipesPrompt ingredients preference (some s) chefPersonality
           flavorProfile recipeStyle
         = recipesPromptHead ingredients preference chefPersonality
             ++ exclusionClause s
             ++ (flavorTextOf flavorProfile ++ (styleTextOf recipeStyle ++ recipesPromptTail)) ∧
       generateRecipesPrompt ingredients preference none chefPersonality
           flavorProfile recipeStyle
         = recipesPromptHead ingredients preference chefPersonality
             ++ (flavorTextOf flavorProfile ++ (styleTextOf recipeStyle ++ recipesPromptTail)) ∧
       strContains (exclusionClause s) s) := by
  constructor
  · intro h
    have hx : exclusionTextOf (some s) = exclusionTextOf none := by
      simp [exclusionTextOf, h]
    unfold generateRecipesPrompt
    rw [hx]
  · intro h
    have hs : s ≠ "" := by
      intro e
      exact h (by rw [e]; rfl)
    have hx : exclusionTextOf (some s) = exclusionClause s := by
      simp [exclusionTextOf, hs, h]
    refine ⟨?_, rfl, ?_⟩
    · unfold generateRecipesPrompt
      rw [hx, String.append_assoc]
    · exact ⟨"\n    IMPORTANT: Do NOT include any of these ingredients or foods in any recipe: ",
        ". Avoid them completely.", rfl⟩

/-- Witness for the amended C7 at the concrete exclusion string
`"peanuts"`. -/
theorem exclusion_clause_embedding_witness :
    generateRecipesPrompt ["rice"] "None" (some "peanuts") ChefPersonality.NORMAL none none
      = recipesPromptHead ["rice"] "None" ChefPersonality.NORMAL
          ++ exclusionClause "peanuts"
          ++ (flavorTextOf none ++ (styleTextOf none ++ recipesPromptTail)) ∧
    strContains (exclusionClause "peanuts") "peanuts" :=
  ⟨((exclusion_clause_embedding ["rice"] "None" ChefPersonality.NORMAL none none
      "peanuts").2 (by decide)).1,
   ((exclusion_clause_embedding ["rice"] "None" ChefPersonality.NORMAL none none
      "peanuts").2 (by decide)).2.2⟩

/-! ## Claim C8 (corrected) -/

/-- Counterexample to C8 as stated: the empty string is a present
filter value different from the `"No Preference"` sentinel, yet its
clause is omitted — the guard also drops every falsy value. -/
theorem flavor_empty_string_counterexample :
    (some ("" : String) ≠ (none : Option String)) ∧
    ("" : String) ≠ "No Preference" ∧
    flavorTextOf (some "") = "" ∧
    generateRecipesPrompt ["rice"] "None" none ChefPersonality.NORMAL (some "") none
      = generateRecipesPrompt ["rice"] "None" none ChefPersonality.NORMAL none none :=
  ⟨fun h => Option.noConfusion h, by decide, rfl, rfl⟩

/-- Claim C8 as amended: in `generateRecipes` and `reinventRecipe`,
the flavor-profile and recipe-style clauses are omitted exactly when
the filter value is absent, empty, or equals the `"No Preference"`
sentinel (`FlavorProfile.NONE`/`RecipeStyle.NONE` in the reinvention
path), and otherwise exactly one clause embedding the filter value
verbatim is inserted at the clause's position in the template. -/
theorem filter_clause_embedding
    (ingredients : List String) (preference : String)
    (excludeIngredients : Option String) (chefPersonality : ChefPersonality)
    (flavorProfile recipeStyle : Option String)
    (request : RecipeReinventionRequest) (s : String) :
    ((s = "" ∨ s = "No Preference") →
       generateRecipesPrompt ingredients preference excludeIngredients chefPersonality
           (some s) recipeStyle
         = generateRecipesPrompt ingredients preference excludeIngredients chefPersonality
             none recipeStyle) ∧
    (s ≠ "" → s ≠ "No Preference" →
       generateRecipesPrompt ingredients preference excludeIngredients chefPersonality
           (some s) recipeStyle
         = recipesPromptHead ingredients preference chefPersonality
             ++ (exclusionTextOf excludeIngredients
             ++ (flavorClause s
             ++ (styleTextOf recipeStyle ++ recipesPromptTail))) ∧
       strContains (flavorClause s) s) ∧
    ((s = "" ∨ s = "No Preference") →
       generateRecipesPrompt ingredients preference excludeIngredients chefPersonality
           flavorProfile (some s)
         = generateRecipesPrompt ingredients preference excludeIngredients chefPersonality
             flavorProfile none) ∧
    (s ≠ "" → s ≠ "No Preference" →
       generateRecipesPrompt ingredients preference excludeIngredients chefPersonality
           flavorProfile (some s)
         = recipesPromptHead ingredients preference chefPersonality
             ++ (exclusionTextOf excludeIngredients
             ++ (flavorTextOf flavorProfile
             ++ (styleClause s ++ recipesPromptTail))) ∧
       strContains (styleClause s) s) ∧
    ((s = "" ∨ s = FlavorProfile.NONE) →
       reinventRecipePrompt { request with flavorProfile := some s }
         = reinventRecipePrompt { request with flavorProfile := none }) ∧
    (s ≠ "" → s ≠ FlavorProfile.NONE →
       reinventRecipePrompt { request with flavorProfile := some s }
         = reinventPromptHead request
             ++ (exclusionTextOf request.excludeIngredients
             ++ (reinventFlavorClause s
             ++ (reinventStyleTextOf request.recipeStyle
             ++ reinventPromptTail request.dishName))) ∧
       strContains (reinventFlavorClause s) s) ∧
    ((s = "" ∨ s = RecipeStyle.NONE) →
       reinventRecipePrompt { request with recipeStyle := some s }
         = reinventRecipePrompt { request with recipeStyle := none }) ∧
    (s ≠ "" → s ≠ RecipeStyle.NONE →
       reinventRecipePrompt { request with recipeStyle := some s }
         = reinventPromptHead request
             ++ (exclusionTextOf request.excludeIngredients
             ++ (reinventFlavorTextOf request.flavorProfile
             ++ (reinventStyleClause s
             ++ reinventPromptTail request.dishName))) ∧
       strContains (reinventStyleClause s) s) := by
  refine ⟨?_, ?_, ?_, ?_, ?_, ?_, ?_, ?_⟩
  · rintro (rfl | rfl) <;> rfl
  · intro hs1 hs2
    have hx : flavorTextOf (some s) = flavorClause s := by
      simp [flavorTextOf, hs1, hs2]
    refine ⟨?_, ⟨"\n    FLAVOR FOCUS: Create recipes that emphasize ",
      " flavors and taste profiles.", rfl⟩⟩
    unfold generateRecipesPrompt
    rw [hx]
  · rintro (rfl | rfl) <;> rfl
  · intro hs1 hs2
    have hx : styleTextOf (some s) = styleClause s := by
      simp [styleTextOf, hs1, hs2]
    refine ⟨?_, ⟨"\n    RECIPE STYLE: Create recipes in ",
      " cuisine style with authentic flavors and techniques.", rfl⟩⟩
    unfold generateRecipesPrompt
    rw [hx]
  · rintro (rfl | rfl) <;> rfl
  · intro hs1 hs2
    have hx : reinventFlavorTextOf (some s) = reinventFlavorClause s := by
      simp [reinventFlavorTextOf, hs1, hs2]
    refine ⟨?_, ⟨"\n    FLAVOR FOCUS: Create reinvented versions that emphasize ",
      " flavors and taste profiles.", rfl⟩⟩
    show reinventRecipePrompt _ = _
    unfold reinventRecipePrompt
    rw [hx]
    rfl
  · rintro (rfl | rfl) <;> rfl
  · intro hs1 hs2
    have hx : reinventStyleTextOf (some s) = reinventStyleClause s := by
      simp [reinventStyleTextOf, hs1, hs2]
    refine ⟨?_, ⟨"\n    RECIPE STYLE: Create reinvented versions in ",
      " cuisine style with authentic flavors and techniques.", rfl⟩⟩
    show reinventRecipePrompt _ = _
    unfold reinventRecipePrompt
    rw [hx]
    rfl

/-- Witness for the amended C8: a concrete included flavor clause and
a concrete sentinel-valued style filter that is omitted. -/
theorem filter_clause_embedding_witness :
    generateRecipesPrompt ["rice"] "None" none ChefPersonality.NORMAL (some "Spicy") none
      = recipesPromptHead ["rice"] "None" ChefPersonality.NORMAL
          ++ (exclusionTextOf none
          ++ (flavorClause "Spicy"
          ++ (styleTextOf none ++ recipesPromptTail))) ∧
    strContains (flavorClause "Spicy") "Spicy" ∧
    reinventRecipePrompt { reqReinvent with recipeStyle := some "No Preference" }
      = reinventRecipePrompt { reqReinvent with recipeStyle := none } :=
  ⟨((filter_clause_embedding ["rice"] "None" none ChefPersonality.NORMAL none none
       reqReinvent "Spicy").2.1 (by decide) (by decide)).1,
   ((filter_clause_embedding ["rice"] "None" none ChefPersonality.NORMAL none none
       reqReinvent "Spicy").2.1 (by decide) (by decide)).2,
   (filter_clause_embedding ["rice"] "None" none ChefPersonality.NORMAL none none
       reqReinvent "No Preference").2.2.2.2.2.2.1 (Or.inr rfl)⟩

/-! ## Claim C1 -/

theorem joinWith_cons_of_ne_nil (sep x : String) (l : List String) (h : l ≠ []) :
    joinWith sep (x :: l) = x ++ sep ++ joinWith sep l := by
  cases l with
  | nil => exact absurd rfl h
  | cons y ys => rfl

theorem joinWith_append_mid (sep : String) (xs : List String) (a b : String)
    (ys : List String) :
    joinWith sep (xs ++ (a ++ (sep ++ b)) :: ys) = joinWith sep (xs ++ a :: b :: ys) := by
  induction xs with
  | nil =>
    cases ys with
    | nil => simp [joinWith, String.append_assoc]
    | cons y ys => simp [joinWith, String.append_assoc]
  | cons x xs ih =>
    have h1 : xs ++ (a ++ (sep ++ b)) :: ys ≠ [] := by simp
    have h2 : xs ++ a :: b :: ys ≠ [] := by simp
    rw [List.cons_append, List.cons_append, joinWith_cons_of_ne_nil sep x _ h1,
      joinWith_cons_of_ne_nil sep x _ h2, ih]

theorem wrapLines_joinWith (measure : String → Nat) (words : List String) :
    ∀ (currentLine : String) (lines : List String),
      (∀ w ∈ words, w ≠ "") → currentLine ≠ "" →
      joinWith " " (wrapLines measure words currentLine lines)
        = joinWith " " (lines ++ currentLine :: words) := by
  induction words with
  | nil => intro cur lines _ _; rfl
  | cons w ws ih =>
    intro cur lines hws hcur
    have hw : w ≠ "" := hws w (List.mem_cons_self w ws)
    have hws' : ∀ x ∈ ws, x ≠ "" := fun x hx => hws x (List.mem_cons_of_mem w hx)
    have hbne : (cur != "") = true := bne_iff_ne.mpr hcur
    unfold wrapLines
    simp only [hbne, if_pos, Bool.and_true]
    split
    · rw [ih w (lines ++ [cur]) hws' hw]
      simp [List.append_assoc]
    · rw [ih (cur ++ (" " ++ w)) lines hws'
        (append_ne_empty_left cur (" " ++ w) hcur)]
      exact joinWith_append_mid " " lines cur w ws

theorem wrapText_joinWith (measure : String → Nat) (recipeName : String)
    (h : ∀ w ∈ jsSplitOnSpace recipeName, w ≠ "") :
    joinWith " " (wrapText measure recipeName)
      = joinWith " " (jsSplitOnSpace recipeName) := by
  unfold wrapText
  cases hsp : jsSplitOnSpace recipeName with
  | nil => rfl
  | cons w ws =>
    rw [hsp] at h
    have hw : w ≠ "" := h w (List.mem_cons_self w ws)
    have hws : ∀ x ∈ ws, x ≠ "" := fun x hx => h x (List.mem_cons_of_mem w hx)
    have hempty : (("" : String) != "") = false := by decide
    unfold wrapLines
    simp only [hempty, Bool.and_false, if_neg, Bool.false_eq_true, not_false_eq_true]
    have hstep : ("" : String) ++ ("" ++ w) = w := rfl
    rw [hstep, wrapLines_joinWith measure ws w [] hws hw]
    rfl

/-- A recipe whose name contains a code unit above U+00FF. -/
def recipePho : ImageRecipe :=
  { recipeName := "Phở"
    ingredients := ["rice noodles", "beef broth"]
    instructions := ["Simmer the broth."] }

set_option maxRecDepth 100000 in
/-- Counterexample to C1 as stated: with both backends failing and no
canvas context, the placeholder's `btoa` call throws
`InvalidCharacterError` on the non-Latin-1 recipe name `"Phở"`, and —
because the placeholder calls sit inside the `catch` handlers — the
error escapes `generateRecipeImage`: the call raises instead of
returning a placeholder. -/
theorem generateRecipeImage_btoa_escape_counterexample :
    envNoParse.fetchPrimary (imagePrompt recipePho) = .threw ∧
    envNoParse.fetchSecondary (fallbackImageUrl envNoParse recipePho) = none ∧
    envNoParse.canvasCtx = none ∧
    generateRecipeImage envNoParse recipePho = .error "InvalidCharacterError" := by
  exact ⟨rfl, rfl, rfl, rfl⟩

/-- Claim C1 as amended: when the primary backend fails (non-ok
response or thrown error) and the secondary succeeds, the secondary's
image is returned and the primary failure does not propagate.  When
both backends fail, the result is the local placeholder's outcome:
with a canvas context, the non-empty JPEG data URL whose drawn wrapped
lines rejoin to the recipe's name (for a name with no empty split
fields); without one, the non-empty base64 SVG data URI containing the
name verbatim, provided the SVG document stays inside `btoa`'s Latin-1
domain — but when it does not (a recipe name with a code unit above
U+00FF), `btoa`'s `InvalidCharacterError` escapes to the caller. -/
theorem generateRecipeImage_fallback_and_placeholder (env : Env) (recipe : ImageRecipe) :
    (∀ img, (env.fetchPrimary (imagePrompt recipe) = .notOk ∨
             env.fetchPrimary (imagePrompt recipe) = .threw) →
       env.fetchSecondary (fallbackImageUrl env recipe) = some img →
       generateRecipeImage env recipe = .ok img) ∧
    ((env.fetchPrimary (imagePrompt recipe) = .notOk ∨
      env.fetchPrimary (imagePrompt recipe) = .threw) →
     env.fetchSecondary (fallbackImageUrl env recipe) = none →
       generateRecipeImage env recipe = generatePlaceholderImage env recipe.recipeName ∧
       (∀ measure, env.canvasCtx = some measure →
          generatePlaceholderImage env recipe.recipeName
            = .ok ("data:image/jpeg;base64,"
                ++ env.canvasJpegData (wrapText measure recipe.recipeName)) ∧
          "data:image/jpeg;base64," ++ env.canvasJpegData (wrapText measure recipe.recipeName)
            ≠ "" ∧
          ((∀ w ∈ jsSplitOnSpace recipe.recipeName, w ≠ "") →
           joinWith " " (jsSplitOnSpace recipe.recipeName) = recipe.recipeName →
             joinWith " " (wrapText measure recipe.recipeName) = recipe.recipeName)) ∧
       (env.canvasCtx = none →
        jsBtoaThrows (placeholderSvg recipe.recipeName) = false →
          generatePlaceholderImage env recipe.recipeName
            = .ok ("data:image/svg+xml;base64," ++ env.btoa (placeholderSvg recipe.recipeName)) ∧
          "data:image/svg+xml;base64," ++ env.btoa (placeholderSvg recipe.recipeName) ≠ "" ∧
          strContains (placeholderSvg recipe.recipeName) recipe.recipeName) ∧
       (env.canvasCtx = none →
        jsBtoaThrows (placeholderSvg recipe.recipeName) = true →
          generateRecipeImage env recipe = .error "InvalidCharacterError")) := by
  constructor
  · intro img h1 h2
    rcases h1 with h1 | h1 <;>
      simp [generateRecipeImage, generateRecipeImageFallback, h1, h2]
  · intro h1 h2
    have hfb : generateRecipeImageFallback env recipe
        = generatePlaceholderImage env recipe.recipeName := by
      simp [generateRecipeImageFallback, h2]
    have hchain : generateRecipeImage env recipe
        = generatePlaceholderImage env recipe.recipeName := by
      rcases h1 with h1 | h1
      · cases hpl : generatePlaceholderImage env recipe.recipeName <;>
          simp [generateRecipeImage, h1, hfb, hpl]
      · simp [generateRecipeImage, h1, hfb]
    refine ⟨hchain, ?_, ?_, ?_⟩
    · intro measure hm
      refine ⟨by simp [generatePlaceholderImage, hm], ?_, ?_⟩
      · exact append_ne_empty_left _ _ (by decide)
      · intro hwords hjoin
        rw [wrapText_joinWith measure recipe.recipeName hwords, hjoin]
    · intro hm hb
      refine ⟨by simp [generatePlaceholderImage, hm, hb], ?_, ?_⟩
      · exact append_ne_empty_left _ _ (by decide)
      · exact ⟨"\n        <svg width=\"512\" height=\"512\" xmlns=\"http://www.w3.org/2000/svg\">\n            <defs>\n                <linearGradient id=\"grad\" x1=\"0%\" y1=\"0%\" x2=\"100%\" y2=\"100%\">\n                    <stop offset=\"0%\" style=\"stop-color:#ff6b6b;stop-opacity:1\" />\n                    <stop offset=\"100%\" style=\"stop-color:#4ecdc4;stop-opacity:1\" />\n                </linearGradient>\n            </defs>\n            <rect width=\"512\" height=\"512\" fill=\"url(#grad)\" />\n            <text x=\"256\" y=\"256\" font-family=\"Arial\" font-size=\"24\" font-weight=\"bold\" text-anchor=\"middle\" fill=\"white\">",
          "</text>\n        </svg>\n    ", rfl⟩
    · intro hm hb
      rw [hchain]
      simp [generatePlaceholderImage, hm, hb]

/-- Environment whose image backends both fail and whose canvas
context is available, with a constant zero text measure. -/
def envCanvas : Env :=
  { testEnv (fun _ => none) with canvasCtx := some (fun _ => 0) }

/-- A concrete recipe for the image-chain witness. -/
def recipeChoco : ImageRecipe :=
  { recipeName := "Choco Lava Cake"
    ingredients := ["chocolate", "flour"]
    instructions := ["Mix and bake."] }

set_option maxRecDepth 100000 in
/-- Witness for the amended C1: with both backends failing, the
Latin-1 recipe name yields the SVG placeholder (canvas unavailable),
and on the canvas path the wrapped lines rejoin to the concrete recipe
name. -/
theorem generateRecipeImage_fallback_and_placeholder_witness :
    generateRecipeImage envNoParse recipeChoco
      = .ok ("data:image/svg+xml;base64,"
          ++ envNoParse.btoa (placeholderSvg "Choco Lava Cake")) ∧
    joinWith " " (wrapText (fun _ => 0) "Choco Lava Cake") = "Choco Lava Cake" := by
  constructor
  · have h := (generateRecipeImage_fallback_and_placeholder envNoParse recipeChoco).2
      (Or.inr rfl) rfl
    exact h.1.trans (h.2.2.1 rfl (by decide)).1
  · have h := (generateRecipeImage_fallback_and_placeholder envCanvas recipeChoco).2
      (Or.inr rfl) rfl
    exact (h.2.1 (fun _ => 0) rfl).2.2 (by decide) (by decide)

end CookiFy
